import Mathlib

/-!
Shallow embedding of TCurlyArc (src/graf2d/graf/src/TCurlyArc.cxx), the
curly/wavy arc primitive of a 2D plotting canvas.  Doubles are modelled as
real numbers.  The host surface (TPad / TVirtualPad, external to this
repository) is modelled from the spec as a structure of affine
pixel/logical coordinate transforms; the external waveform generator
(TCurlyLine::Build) is a parameter producing the list of offset points for
a straight segment.
-/

namespace CurlyArcModel

/-- Modelled from the spec: the host surface (gPad, not under src/).
Per spec section 6 it provides mutually inverse logical/pixel coordinate
transforms; they are modelled as affine maps with slope and intercept
fields.  The fields ww, wh, absWNDC, absHNDC, x1, x2, y1, y2 are the raw
window/range quantities that TCurlyArc::Build reads from the pad. -/
structure Pad where
  ww : ℝ
  wh : ℝ
  absWNDC : ℝ
  absHNDC : ℝ
  x1 : ℝ
  x2 : ℝ
  y1 : ℝ
  y2 : ℝ
  mx : ℝ
  xk : ℝ
  axk : ℝ
  my : ℝ
  yk : ℝ
  ayk : ℝ
  vk : ℝ

/-- Modelled from the spec: gPad XtoPixel, logical x to pad pixel. -/
noncomputable def Pad.xToPixel (p : Pad) (x : ℝ) : ℝ := p.xk + p.mx * x

/-- Modelled from the spec: gPad PixeltoX, pad pixel to logical x. -/
noncomputable def Pad.pixelToX (p : Pad) (q : ℝ) : ℝ := (q - p.xk) / p.mx

/-- Modelled from the spec: gPad XtoAbsPixel, logical x to absolute pixel. -/
noncomputable def Pad.xToAbsPixel (p : Pad) (x : ℝ) : ℝ := p.axk + p.mx * x

/-- Modelled from the spec: gPad AbsPixeltoX, absolute pixel to logical x. -/
noncomputable def Pad.absPixelToX (p : Pad) (q : ℝ) : ℝ := (q - p.axk) / p.mx

/-- Modelled from the spec: gPad YtoPixel, logical y to pad pixel. -/
noncomputable def Pad.yToPixel (p : Pad) (y : ℝ) : ℝ := p.yk + p.my * y

/-- Modelled from the spec: gPad PixeltoY, pad pixel to logical y. -/
noncomputable def Pad.pixelToY (p : Pad) (q : ℝ) : ℝ := (q - p.yk) / p.my

/-- Modelled from the spec: gPad YtoAbsPixel, logical y to absolute pixel. -/
noncomputable def Pad.yToAbsPixel (p : Pad) (y : ℝ) : ℝ := p.ayk + p.my * y

/-- Modelled from the spec: gPad AbsPixeltoY, absolute pixel to logical y. -/
noncomputable def Pad.absPixelToY (p : Pad) (q : ℝ) : ℝ := (q - p.ayk) / p.my

/-- Modelled from the spec: gPad VtoPixel(0), the constant offset used in
the Y bounding-box setters. -/
noncomputable def Pad.vToPixel0 (p : Pad) : ℝ := p.vk

/-- The TCurlyArc entity: TCurlyLine fields fX1, fY1, fX2, fY2,
fWaveLength, fAmplitude, fIsCurly inherited; own fields fR1, fPhimin,
fPhimax, fTheta.  The field polyline is the derived pixel polyline (the
point arrays of TPolyLine after Build), and builds is an instrumentation
counter recording how many times Build has been invoked on this value, so
that the rebuild side effect is observable in the embedding. -/
structure CurlyArc where
  fX1 : ℝ
  fY1 : ℝ
  fX2 : ℝ
  fY2 : ℝ
  fR1 : ℝ
  fPhimin : ℝ
  fPhimax : ℝ
  fWaveLength : ℝ
  fAmplitude : ℝ
  fTheta : ℝ
  fIsCurly : Bool
  polyline : List (ℝ × ℝ)
  builds : ℕ

/-- The external Waveform Builder (TCurlyLine::Build, not under src/):
reads the line state (fX1, fY1, fX2, fY2, fWaveLength, fAmplitude,
fIsCurly) and produces the waveform points. -/
def WaveBuilder : Type := CurlyArc → List (ℝ × ℝ)

/-- The process-wide defaults fgDefaultWaveLength, fgDefaultAmplitude,
fgDefaultIsCurly (statics at lines 36-38 of TCurlyArc.cxx). -/
structure CurlyDefaults where
  waveLength : ℝ
  amplitude : ℝ
  isCurly : Bool

/-- Initial values of the statics: 0.02, 0.01, kTRUE. -/
noncomputable def initialDefaults : CurlyDefaults := ⟨0.02, 0.01, true⟩

/-- TCurlyArc::SetDefaultWaveLength. -/
def setDefaultWaveLength (d : CurlyDefaults) (v : ℝ) : CurlyDefaults :=
  { d with waveLength := v }

/-- TCurlyArc::SetDefaultAmplitude. -/
def setDefaultAmplitude (d : CurlyDefaults) (v : ℝ) : CurlyDefaults :=
  { d with amplitude := v }

/-- TCurlyArc::SetDefaultIsCurly. -/
def setDefaultIsCurly (d : CurlyDefaults) (b : Bool) : CurlyDefaults :=
  { d with isCurly := b }

/-- Build, lines 77-90: pixeltoX = xrange / pxrange where
pxrange = GetAbsWNDC()*GetWw(); 1 when no pad is attached. -/
noncomputable def padPixeltoX (g : Option Pad) : ℝ :=
  match g with
  | some p => (p.x2 - p.x1) / (p.absWNDC * p.ww)
  | none => 1

/-- Build, lines 78-88: pixeltoY = yrange / pyrange where
pyrange = -GetAbsHNDC()*GetWh(); 1 when no pad is attached. -/
noncomputable def padPixeltoY (g : Option Pad) : ℝ :=
  match g with
  | some p => (p.y2 - p.y1) / (-(p.absHNDC * p.wh))
  | none => 1

/-- Build, lines 79-89: rPix = fR1 / pixeltoX with a pad, fR1 without. -/
noncomputable def buildRPix (g : Option Pad) (a : CurlyArc) : ℝ :=
  match g with
  | some _ => a.fR1 / padPixeltoX g
  | none => a.fR1

/-- Build, lines 91-92: dang = fPhimax - fPhimin, plus 360 if negative. -/
noncomputable def buildDang (a : CurlyArc) : ℝ :=
  if a.fPhimax - a.fPhimin < 0 then a.fPhimax - a.fPhimin + 360
  else a.fPhimax - a.fPhimin

/-- Build, line 93: length = pi * fR1 * dang / 180. -/
noncomputable def buildLength (a : CurlyArc) : ℝ :=
  Real.pi * a.fR1 * buildDang a / 180

/-- Build, lines 94-98: the line state handed to TCurlyLine::Build, with
the center zeroed and the straight segment (0,0)-(length,0) installed. -/
noncomputable def buildLineState (a : CurlyArc) : CurlyArc :=
  { a with fX1 := 0, fY1 := 0, fX2 := buildLength a, fY2 := 0 }

/-- Build, lines 104-113: map one local waveform point onto the arc. -/
noncomputable def buildMapPoint (g : Option Pad) (a : CurlyArc) (q : ℝ × ℝ) : ℝ × ℝ :=
  ((q.2 + buildRPix g a) *
      Real.cos (q.1 / buildRPix g a + a.fPhimin * Real.pi / 180) *
      padPixeltoX g + a.fX1,
   (q.2 + buildRPix g a) *
      Real.sin (q.1 / buildRPix g a + a.fPhimin * Real.pi / 180) *
      |padPixeltoY g| + a.fY1)

/-- TCurlyArc::Build (lines 75-115): invoke the waveform builder on the
zeroed line state, restore the center, bend every local point onto the
arc.  fX2 and fY2 keep the values installed before the builder call, as in
the source.  The builds counter records the invocation. -/
noncomputable def build (wf : WaveBuilder) (g : Option Pad) (a : CurlyArc) : CurlyArc :=
  { a with fX2 := buildLength a, fY2 := 0,
           polyline := (wf (buildLineState a)).map (buildMapPoint g a),
           builds := a.builds + 1 }

/-- The seven-argument constructor TCurlyArc::TCurlyArc (lines 58-70):
fIsCurly is seeded from the process-wide default, fTheta zeroed, then
Build runs. -/
noncomputable def mkCurlyArc (wf : WaveBuilder) (g : Option Pad) (d : CurlyDefaults)
    (x1 y1 rad phimin phimax wl amp : ℝ) : CurlyArc :=
  build wf g
    { fX1 := x1, fY1 := y1, fX2 := 0, fY2 := 0, fR1 := rad,
      fPhimin := phimin, fPhimax := phimax,
      fWaveLength := wl, fAmplitude := amp, fTheta := 0,
      fIsCurly := d.isCurly, polyline := [], builds := 0 }

/-- Modelled from the spec: the constructor's omitted wave arguments live
in the class declaration header, which is not under src/; per spec
section 3 the process-wide defaults seed new instances at construction, so
a construction without explicit wave overrides passes the current
defaults. -/
noncomputable def mkCurlyArcDefault (wf : WaveBuilder) (g : Option Pad) (d : CurlyDefaults)
    (x1 y1 rad phimin phimax : ℝ) : CurlyArc :=
  mkCurlyArc wf g d x1 y1 rad phimin phimax d.waveLength d.amplitude

/-- atan2 of TMath, modelled as the principal argument of x + y i. -/
noncomputable def atan2 (y x : ℝ) : ℝ :=
  Complex.arg ((x : ℂ) + (y : ℂ) * Complex.I)

/-- DistancetoPrimitive, line 129: pixel distance of the query point from
the pixel center of the arc. -/
noncomputable def ptDist (p : Pad) (a : CurlyArc) (px py : ℝ) : ℝ :=
  Real.sqrt ((p.xToAbsPixel a.fX1 - px) ^ 2 + (p.yToAbsPixel a.fY1 - py) ^ 2)

/-- DistancetoPrimitive, lines 130-134: the angle of the query point
relative to the center, normalized to [0, 360) degrees.  The direction
cosines cosa and sina divide by the distance from the center. -/
noncomputable def ptPhi (p : Pad) (a : CurlyArc) (px py : ℝ) : ℝ :=
  (if atan2 ((p.yToAbsPixel a.fY1 - py) / ptDist p a px py)
        ((px - p.xToAbsPixel a.fX1) / ptDist p a px py) < 0 then
     atan2 ((p.yToAbsPixel a.fY1 - py) / ptDist p a px py)
        ((px - p.xToAbsPixel a.fX1) / ptDist p a px py) + 2 * Real.pi
   else
     atan2 ((p.yToAbsPixel a.fY1 - py) / ptDist p a px py)
        ((px - p.xToAbsPixel a.fX1) / ptDist p a px py)) * 180 / Real.pi

/-- DistancetoPrimitive, line 140: the pixel radius. -/
noncomputable def pixelRadius (p : Pad) (a : CurlyArc) : ℝ :=
  p.xToPixel a.fR1 - p.xToPixel 0

/-- TCurlyArc::DistancetoPrimitive (lines 123-143).  The division by the
distance from the center is guarded: the embedding returns none where the
source would divide by zero (query point at the pixel center).  The final
truncation Int_t(distr) of the nonnegative distance is the floor. -/
noncomputable def distancetoPrimitive (g : Option Pad) (a : CurlyArc) (px py : ℝ) :
    Option ℤ :=
  match g with
  | none => some 9999
  | some p =>
    if ptDist p a px py = 0 then none
    else
      if a.fPhimax > a.fPhimin then
        if ptPhi p a px py < a.fPhimin ∨ ptPhi p a px py > a.fPhimax then some 9999
        else some (Int.floor |ptDist p a px py - pixelRadius p a|)
      else
        if ptPhi p a px py > a.fPhimin ∧ ptPhi p a px py < a.fPhimax then some 9999
        else some (Int.floor |ptDist p a px py - pixelRadius p a|)

/-- TCurlyArc::SetCenter (lines 433-438). -/
noncomputable def setCenter (wf : WaveBuilder) (g : Option Pad) (a : CurlyArc)
    (x y : ℝ) : CurlyArc :=
  build wf g { a with fX1 := x, fY1 := y }

/-- TCurlyArc::SetRadius (lines 443-447). -/
noncomputable def setRadius (wf : WaveBuilder) (g : Option Pad) (a : CurlyArc)
    (x : ℝ) : CurlyArc :=
  build wf g { a with fR1 := x }

/-- TCurlyArc::SetPhimin (lines 452-456). -/
noncomputable def setPhimin (wf : WaveBuilder) (g : Option Pad) (a : CurlyArc)
    (x : ℝ) : CurlyArc :=
  build wf g { a with fPhimin := x }

/-- TCurlyArc::SetPhimax (lines 461-465). -/
noncomputable def setPhimax (wf : WaveBuilder) (g : Option Pad) (a : CurlyArc)
    (x : ℝ) : CurlyArc :=
  build wf g { a with fPhimax := x }

/-- The bounding-box rectangle returned by GetBBox. -/
structure BBoxR where
  x : ℝ
  y : ℝ
  width : ℝ
  height : ℝ

/-- GetBBox and the Y edge setters, lines 523, 609, 625: the vertical
radius R2 = fR1 * |GetY2()-GetY1()| / |GetX2()-GetX1()|. -/
noncomputable def vRadius (p : Pad) (a : CurlyArc) : ℝ :=
  a.fR1 * |p.y2 - p.y1| / |p.x2 - p.x1|

/-- TCurlyArc::GetBBox (lines 518-530): zero rectangle without a pad. -/
noncomputable def getBBox (g : Option Pad) (a : CurlyArc) : BBoxR :=
  match g with
  | none => ⟨0, 0, 0, 0⟩
  | some p =>
    ⟨p.xToPixel (a.fX1 - a.fR1),
     p.yToPixel (a.fY1 + vRadius p a),
     p.xToPixel (a.fX1 + a.fR1) - p.xToPixel (a.fX1 - a.fR1),
     p.yToPixel (a.fY1 - vRadius p a) - p.yToPixel (a.fY1 + vRadius p a)⟩

/-- TCurlyArc::SetBBoxX1 (lines 579-587). -/
noncomputable def setBBoxX1 (g : Option Pad) (a : CurlyArc) (x : ℝ) : CurlyArc :=
  match g with
  | none => a
  | some p =>
    if p.pixelToX x > a.fX1 + a.fR1 then a
    else
      { a with fR1 := (a.fX1 + a.fR1 - p.pixelToX x) * 0.5,
               fX1 := p.pixelToX x + (a.fX1 + a.fR1 - p.pixelToX x) * 0.5 }

/-- TCurlyArc::SetBBoxX2 (lines 593-601). -/
noncomputable def setBBoxX2 (g : Option Pad) (a : CurlyArc) (x : ℝ) : CurlyArc :=
  match g with
  | none => a
  | some p =>
    if p.pixelToX x < a.fX1 - a.fR1 then a
    else
      { a with fR1 := (p.pixelToX x - a.fX1 + a.fR1) * 0.5,
               fX1 := p.pixelToX x - (p.pixelToX x - a.fX1 + a.fR1) * 0.5 }

/-- TCurlyArc::SetBBoxY1 (lines 606-616).  Note that the recentering
fY1 = y1 - R2 uses the old vertical radius R2. -/
noncomputable def setBBoxY1 (g : Option Pad) (a : CurlyArc) (y : ℝ) : CurlyArc :=
  match g with
  | none => a
  | some p =>
    if p.pixelToY (y - p.vToPixel0) < a.fY1 - vRadius p a then a
    else
      { a with fR1 := (p.pixelToY (y - p.vToPixel0) - a.fY1 + vRadius p a) * 0.5 /
                 (|p.y2 - p.y1| / |p.x2 - p.x1|),
               fY1 := p.pixelToY (y - p.vToPixel0) - vRadius p a }

/-- TCurlyArc::SetBBoxY2 (lines 622-633).  Note that the recentering
fY1 = y2 + R2 uses the old vertical radius R2. -/
noncomputable def setBBoxY2 (g : Option Pad) (a : CurlyArc) (y : ℝ) : CurlyArc :=
  match g with
  | none => a
  | some p =>
    if p.pixelToY (y - p.vToPixel0) > a.fY1 + vRadius p a then a
    else
      { a with fR1 := (a.fY1 + vRadius p a - p.pixelToY (y - p.vToPixel0)) * 0.5 /
                 (|p.y2 - p.y1| / |p.x2 - p.x1|),
               fY1 := p.pixelToY (y - p.vToPixel0) + vRadius p a }

/-- ExecuteEvent, kButton1Up with non-opaque pad (lines 394-404): commit
the working pixel center px1, py1 and working pixel radius r1 back to
logical coordinates, then Build. -/
noncomputable def executeButton1Up (wf : WaveBuilder) (p : Pad) (a : CurlyArc)
    (px1 py1 r1 : ℝ) : CurlyArc :=
  build wf (some p)
    { a with fX1 := p.absPixelToX px1,
             fY1 := p.absPixelToY py1,
             fR1 := |p.absPixelToX (px1 - r1) - p.absPixelToX (px1 + r1)| / 2 }

/-- The data content of the statements emitted by
TCurlyArc::SavePrimitive (lines 413-428): the seven constructor arguments
in order, and whether the wavy-mode toggle statement is emitted.  The
textual form and the generic line-attribute and draw statements are
host-scripting concerns outside the model. -/
structure SaveScript where
  x1 : ℝ
  y1 : ℝ
  rad : ℝ
  phimin : ℝ
  phimax : ℝ
  wl : ℝ
  amp : ℝ
  emitSetWavy : Bool

/-- TCurlyArc::SavePrimitive: emit the construction call with the seven
numeric fields in order, and the SetWavy statement exactly when fIsCurly
is false. -/
def savePrimitive (a : CurlyArc) : SaveScript :=
  ⟨a.fX1, a.fY1, a.fR1, a.fPhimin, a.fPhimax, a.fWaveLength, a.fAmplitude,
   !a.fIsCurly⟩

/-- Modelled from the spec: TCurlyLine::SetWavy (not under src/), the
wavy-mode toggle: it clears the curly flag and rebuilds. -/
noncomputable def setWavy (wf : WaveBuilder) (g : Option Pad) (a : CurlyArc) : CurlyArc :=
  build wf g { a with fIsCurly := false }

/-- Re-execution of the emitted statements by the host scripting layer:
the construction call, then the wavy-mode toggle when it was emitted. -/
noncomputable def replay (wf : WaveBuilder) (g : Option Pad) (d : CurlyDefaults)
    (s : SaveScript) : CurlyArc :=
  if s.emitSetWavy then
    setWavy wf g (mkCurlyArc wf g d s.x1 s.y1 s.rad s.phimin s.phimax s.wl s.amp)
  else
    mkCurlyArc wf g d s.x1 s.y1 s.rad s.phimin s.phimax s.wl s.amp

/-- A concrete pad for evaluations: logical x maps to absolute pixel 2x
(so the pixel radius doubles the logical radius), logical y maps to
absolute pixel 100 + y. -/
noncomputable def pad0 : Pad :=
  ⟨100, 100, 1, 1, 0, 1, 0, 1, 2, 0, 0, 1, 0, 100, 0⟩

/-- A concrete arc for evaluations: center (50, 0) (pixel center
(100, 100) under pad0), radius 10, wraparound span from 270 through 360
to 90 degrees. -/
noncomputable def arc0 : CurlyArc :=
  ⟨50, 0, 0, 0, 10, 270, 90, 0.02, 0.01, 0, true, [], 0⟩

/-- A concrete identity pad: every transform is the identity, unit
logical ranges. -/
noncomputable def pad1 : Pad :=
  ⟨100, 100, 1, 1, 0, 1, 0, 1, 1, 0, 0, 1, 0, 0, 0⟩

/-- A concrete arc at the origin with radius 1. -/
noncomputable def arc1 : CurlyArc :=
  ⟨0, 0, 0, 0, 1, 0, 90, 0.02, 0.01, 0, true, [], 0⟩

/-- Defaults after SetDefaultIsCurly(kFALSE). -/
noncomputable def wavyDefaults : CurlyDefaults := ⟨0.02, 0.01, false⟩

/-- A trivial waveform builder producing no points, for evaluations. -/
def emptyWave : WaveBuilder := fun _ => []

/-- Unfolding lemma for setBBoxX1 with a pad attached. -/
theorem setBBoxX1_eq (p : Pad) (a : CurlyArc) (v : ℝ) :
    setBBoxX1 (some p) a v =
      if p.pixelToX v > a.fX1 + a.fR1 then a
      else { a with fR1 := (a.fX1 + a.fR1 - p.pixelToX v) * 0.5,
                    fX1 := p.pixelToX v + (a.fX1 + a.fR1 - p.pixelToX v) * 0.5 } := rfl

/-- Unfolding lemma for setBBoxX2 with a pad attached. -/
theorem setBBoxX2_eq (p : Pad) (a : CurlyArc) (v : ℝ) :
    setBBoxX2 (some p) a v =
      if p.pixelToX v < a.fX1 - a.fR1 then a
      else { a with fR1 := (p.pixelToX v - a.fX1 + a.fR1) * 0.5,
                    fX1 := p.pixelToX v - (p.pixelToX v - a.fX1 + a.fR1) * 0.5 } := rfl

/-- Unfolding lemma for setBBoxY1 with a pad attached. -/
theorem setBBoxY1_eq (p : Pad) (a : CurlyArc) (v : ℝ) :
    setBBoxY1 (some p) a v =
      if p.pixelToY (v - p.vToPixel0) < a.fY1 - vRadius p a then a
      else { a with fR1 := (p.pixelToY (v - p.vToPixel0) - a.fY1 + vRadius p a) * 0.5 /
                      (|p.y2 - p.y1| / |p.x2 - p.x1|),
                    fY1 := p.pixelToY (v - p.vToPixel0) - vRadius p a } := rfl

/-- Unfolding lemma for setBBoxY2 with a pad attached. -/
theorem setBBoxY2_eq (p : Pad) (a : CurlyArc) (v : ℝ) :
    setBBoxY2 (some p) a v =
      if p.pixelToY (v - p.vToPixel0) > a.fY1 + vRadius p a then a
      else { a with fR1 := (a.fY1 + vRadius p a - p.pixelToY (v - p.vToPixel0)) * 0.5 /
                      (|p.y2 - p.y1| / |p.x2 - p.x1|),
                    fY1 := p.pixelToY (v - p.vToPixel0) + vRadius p a } := rfl

/-- The pixel-to-logical x transform inverts the logical-to-pixel one. -/
theorem pixelToX_xToPixel (p : Pad) (h : p.mx ≠ 0) (z : ℝ) :
    p.pixelToX (p.xToPixel z) = z := by
  unfold Pad.pixelToX Pad.xToPixel
  field_simp

/-- C2: after SetDefaultAmplitude(v) a newly constructed arc without an
explicit amplitude override has amplitude v, and the process-wide default
wave length and curly flag likewise seed the corresponding fields of every
new instance at construction. -/
theorem defaults_seed_new_instances (wf : WaveBuilder) (g : Option Pad)
    (d : CurlyDefaults) (v w : ℝ) (b : Bool) (x1 y1 rad phimin phimax : ℝ) :
    (mkCurlyArcDefault wf g (setDefaultAmplitude d v) x1 y1 rad phimin phimax).fAmplitude
        = v ∧
    (mkCurlyArcDefault wf g (setDefaultWaveLength d w) x1 y1 rad phimin phimax).fWaveLength
        = w ∧
    (mkCurlyArcDefault wf g (setDefaultIsCurly d b) x1 y1 rad phimin phimax).fIsCurly
        = b ∧
    (mkCurlyArcDefault wf g d x1 y1 rad phimin phimax).fWaveLength = d.waveLength ∧
    (mkCurlyArcDefault wf g d x1 y1 rad phimin phimax).fAmplitude = d.amplitude ∧
    (mkCurlyArcDefault wf g d x1 y1 rad phimin phimax).fIsCurly = d.isCurly :=
  ⟨rfl, rfl, rfl, rfl, rfl, rfl⟩

/-- C3 counterexample: SetBBoxX1 with an accepted edge move mutates the
radius but performs no Build invocation, refuting the claim that every
bounding-box edge setter triggers a full polyline rebuild. -/
theorem setBBoxX1_no_rebuild_counterexample :
    (setBBoxX1 (some pad1) arc1 (-2)).builds = arc1.builds ∧
    (setBBoxX1 (some pad1) arc1 (-2)).fR1 ≠ arc1.fR1 := by
  rw [setBBoxX1_eq]
  norm_num [Pad.pixelToX, pad1, arc1]

/-- C3 amended: the center, radius and phi-bound setters each invoke the
Arc Mapper exactly once before returning; the bounding-box edge setters
SetBBoxX1, SetBBoxX2, SetBBoxY1, SetBBoxY2 never invoke it. -/
theorem setters_rebuild_classified (wf : WaveBuilder) (g : Option Pad)
    (a : CurlyArc) (x y : ℝ) :
    (setCenter wf g a x y).builds = a.builds + 1 ∧
    (setRadius wf g a x).builds = a.builds + 1 ∧
    (setPhimin wf g a x).builds = a.builds + 1 ∧
    (setPhimax wf g a x).builds = a.builds + 1 ∧
    (setBBoxX1 g a x).builds = a.builds ∧
    (setBBoxX2 g a x).builds = a.builds ∧
    (setBBoxY1 g a x).builds = a.builds ∧
    (setBBoxY2 g a x).builds = a.builds := by
  refine ⟨rfl, rfl, rfl, rfl, ?_, ?_, ?_, ?_⟩ <;>
    cases g with
    | none => rfl
    | some p =>
      first
      | rw [setBBoxX1_eq] | rw [setBBoxX2_eq] | rw [setBBoxY1_eq] | rw [setBBoxY2_eq]
      split_ifs <;> rfl

/-- C4: Build normalizes the angular sweep by adding 360 to a negative
difference, hands the external Waveform Builder a straight segment of
length pi * radius * dang / 180 with the center zeroed during the call,
and restores the center afterwards. -/
theorem build_segment_length_and_center (a : CurlyArc) :
    (buildLineState a).fX1 = 0 ∧ (buildLineState a).fY1 = 0 ∧
    (buildLineState a).fY2 = 0 ∧
    (buildLineState a).fX2 =
      Real.pi * a.fR1 *
        (if a.fPhimax - a.fPhimin < 0 then a.fPhimax - a.fPhimin + 360
         else a.fPhimax - a.fPhimin) / 180 ∧
    ∀ (wf : WaveBuilder) (g : Option Pad),
      (build wf g a).fX1 = a.fX1 ∧ (build wf g a).fY1 = a.fY1 ∧
      (build wf g a).polyline = (wf (buildLineState a)).map (buildMapPoint g a) :=
  ⟨rfl, rfl, rfl, rfl, fun _ _ => ⟨rfl, rfl, rfl⟩⟩

/-- C9: each local waveform point (lx, ly) is mapped to the polyline point
obtained from angle lx / pixelRadius + phiMin * pi / 180, arc position
(ly + pixelRadius) * (cos angle, sin angle), rescaling by the X
pixel-to-logical factor and the absolute value of the Y factor, and
translation by the real center. -/
theorem build_point_mapping (wf : WaveBuilder) (g : Option Pad) (a : CurlyArc) :
    (build wf g a).polyline =
      (wf (buildLineState a)).map (fun q =>
        ((q.2 + buildRPix g a) *
            Real.cos (q.1 / buildRPix g a + a.fPhimin * Real.pi / 180) *
            padPixeltoX g + a.fX1,
         (q.2 + buildRPix g a) *
            Real.sin (q.1 / buildRPix g a + a.fPhimin * Real.pi / 180) *
            |padPixeltoY g| + a.fY1)) := rfl

/-- C5 counterexample: a curly arc serialized and re-executed in an
environment whose default curly flag has been set to false comes back
wavy, refuting field-identical reconstruction for every arc. -/
theorem savePrimitive_roundtrip_counterexample :
    arc0.fIsCurly = true ∧
    (replay emptyWave none wavyDefaults (savePrimitive arc0)).fIsCurly = false :=
  ⟨rfl, rfl⟩

/-- C5 amended: re-executing the emitted statements reconstructs the seven
numeric fields exactly; the curly flag is also reconstructed provided the
original arc is wavy (the toggle statement is then emitted) or the
reconstructing process's default curly flag is true, as it is at process
start. -/
theorem savePrimitive_roundtrip_amended (wf : WaveBuilder) (g : Option Pad)
    (d : CurlyDefaults) (a : CurlyArc) :
    (replay wf g d (savePrimitive a)).fX1 = a.fX1 ∧
    (replay wf g d (savePrimitive a)).fY1 = a.fY1 ∧
    (replay wf g d (savePrimitive a)).fR1 = a.fR1 ∧
    (replay wf g d (savePrimitive a)).fPhimin = a.fPhimin ∧
    (replay wf g d (savePrimitive a)).fPhimax = a.fPhimax ∧
    (replay wf g d (savePrimitive a)).fWaveLength = a.fWaveLength ∧
    (replay wf g d (savePrimitive a)).fAmplitude = a.fAmplitude ∧
    ((a.fIsCurly = false ∨ d.isCurly = true) →
      (replay wf g d (savePrimitive a)).fIsCurly = a.fIsCurly) := by
  cases hc : a.fIsCurly <;>
    simp [replay, savePrimitive, mkCurlyArc, setWavy, build, hc]

/-- C5 witness: with the initial process defaults a curly arc
round-trips its curly flag. -/
theorem savePrimitive_roundtrip_witness :
    (arc0.fIsCurly = false ∨ initialDefaults.isCurly = true) ∧
    (replay emptyWave none initialDefaults (savePrimitive arc0)).fIsCurly
      = arc0.fIsCurly :=
  ⟨Or.inr rfl,
   (savePrimitive_roundtrip_amended emptyWave none initialDefaults
      arc0).2.2.2.2.2.2.2 (Or.inr rfl)⟩

/-- C6 counterexample: an accepted SetBBoxY1 move on the identity pad
(move the top edge of the unit circle from 1 to 3) yields radius 2 and
center y 2, so the bottom edge moves from -1 to 0 instead of staying
fixed, refuting the opposite-edge-held-fixed part of the claim. -/
theorem setBBoxY1_opposite_edge_counterexample :
    (setBBoxY1 (some pad1) arc1 3).fR1 = 2 ∧
    (setBBoxY1 (some pad1) arc1 3).fY1 = 2 ∧
    (setBBoxY1 (some pad1) arc1 3).fY1 - vRadius pad1 (setBBoxY1 (some pad1) arc1 3)
      ≠ arc1.fY1 - vRadius pad1 arc1 := by
  rw [setBBoxY1_eq]
  norm_num [Pad.pixelToY, Pad.vToPixel0, vRadius, pad1, arc1]

/-- C6 amended: every rejected edge move (requested edge strictly past the
opposite edge) returns with the arc unchanged; accepted moves on the X
setters put the moved edge at the requested coordinate and hold the
opposite edge fixed; accepted moves on the Y setters give a new vertical
radius of half the distance from the moved edge to the old opposite edge
but recentre using the old vertical radius, so the opposite edge is not
held fixed. -/
theorem setBBox_edge_spec (p : Pad) (a : CurlyArc) (v : ℝ)
    (hx : p.x1 ≠ p.x2) (hy : p.y1 ≠ p.y2) :
    (p.pixelToX v > a.fX1 + a.fR1 → setBBoxX1 (some p) a v = a) ∧
    (p.pixelToX v ≤ a.fX1 + a.fR1 →
      (setBBoxX1 (some p) a v).fX1 - (setBBoxX1 (some p) a v).fR1 = p.pixelToX v ∧
      (setBBoxX1 (some p) a v).fX1 + (setBBoxX1 (some p) a v).fR1 = a.fX1 + a.fR1) ∧
    (p.pixelToX v < a.fX1 - a.fR1 → setBBoxX2 (some p) a v = a) ∧
    (a.fX1 - a.fR1 ≤ p.pixelToX v →
      (setBBoxX2 (some p) a v).fX1 + (setBBoxX2 (some p) a v).fR1 = p.pixelToX v ∧
      (setBBoxX2 (some p) a v).fX1 - (setBBoxX2 (some p) a v).fR1 = a.fX1 - a.fR1) ∧
    (p.pixelToY (v - p.vToPixel0) < a.fY1 - vRadius p a →
      setBBoxY1 (some p) a v = a) ∧
    (a.fY1 - vRadius p a ≤ p.pixelToY (v - p.vToPixel0) →
      (setBBoxY1 (some p) a v).fY1 = p.pixelToY (v - p.vToPixel0) - vRadius p a ∧
      vRadius p (setBBoxY1 (some p) a v) =
        (p.pixelToY (v - p.vToPixel0) - (a.fY1 - vRadius p a)) / 2) ∧
    (p.pixelToY (v - p.vToPixel0) > a.fY1 + vRadius p a →
      setBBoxY2 (some p) a v = a) ∧
    (p.pixelToY (v - p.vToPixel0) ≤ a.fY1 + vRadius p a →
      (setBBoxY2 (some p) a v).fY1 = p.pixelToY (v - p.vToPixel0) + vRadius p a ∧
      vRadius p (setBBoxY2 (some p) a v) =
        ((a.fY1 + vRadius p a) - p.pixelToY (v - p.vToPixel0)) / 2) := by
  have hax : |p.x2 - p.x1| ≠ 0 := abs_ne_zero.mpr (sub_ne_zero.mpr (Ne.symm hx))
  have hay : |p.y2 - p.y1| ≠ 0 := abs_ne_zero.mpr (sub_ne_zero.mpr (Ne.symm hy))
  refine ⟨?_, ?_, ?_, ?_, ?_, ?_, ?_, ?_⟩
  · intro h
    rw [setBBoxX1_eq, if_pos h]
  · intro h
    rw [setBBoxX1_eq, if_neg (not_lt.mpr h)]
    constructor <;> (simp only []; ring)
  · intro h
    rw [setBBoxX2_eq, if_pos h]
  · intro h
    rw [setBBoxX2_eq, if_neg (not_lt.mpr h)]
    constructor <;> (simp only []; ring)
  · intro h
    rw [setBBoxY1_eq, if_pos h]
  · intro h
    rw [setBBoxY1_eq, if_neg (not_lt.mpr h)]
    refine ⟨rfl, ?_⟩
    show (p.pixelToY (v - p.vToPixel0) - a.fY1 + vRadius p a) * 0.5 /
        (|p.y2 - p.y1| / |p.x2 - p.x1|) * |p.y2 - p.y1| / |p.x2 - p.x1| = _
    field_simp
    ring
  · intro h
    rw [setBBoxY2_eq, if_pos h]
  · intro h
    rw [setBBoxY2_eq, if_neg (not_lt.mpr h)]
    refine ⟨rfl, ?_⟩
    show (a.fY1 + vRadius p a - p.pixelToY (v - p.vToPixel0)) * 0.5 /
        (|p.y2 - p.y1| / |p.x2 - p.x1|) * |p.y2 - p.y1| / |p.x2 - p.x1| = _
    field_simp
    ring

/-- C6 witness: an accepted SetBBoxX1 move on the identity pad keeps the
right edge fixed and lands the left edge at the requested coordinate. -/
theorem setBBox_edge_spec_witness :
    pad1.pixelToX (-2) ≤ arc1.fX1 + arc1.fR1 ∧
    (setBBoxX1 (some pad1) arc1 (-2)).fX1 + (setBBoxX1 (some pad1) arc1 (-2)).fR1
      = arc1.fX1 + arc1.fR1 ∧
    (setBBoxX1 (some pad1) arc1 (-2)).fX1 - (setBBoxX1 (some pad1) arc1 (-2)).fR1
      = pad1.pixelToX (-2) := by
  have hle : pad1.pixelToX (-2) ≤ arc1.fX1 + arc1.fR1 := by
    norm_num [Pad.pixelToX, pad1, arc1]
  have h := (setBBox_edge_spec pad1 arc1 (-2) (by norm_num [pad1])
    (by norm_num [pad1])).2.1 hle
  exact ⟨hle, h.2, h.1⟩

/-- C7: with a host surface attached (transforms modelled as exact
inverses), SetBBoxX1 at the bounding box's left pixel edge followed by
SetBBoxX2 at its right pixel edge reproduces the original radius and
center exactly. -/
theorem bbox_x_roundtrip (p : Pad) (a : CurlyArc) (h : p.mx ≠ 0) :
    (setBBoxX2 (some p) (setBBoxX1 (some p) a (getBBox (some p) a).x)
        ((getBBox (some p) a).x + (getBBox (some p) a).width)).fR1 = a.fR1 ∧
    (setBBoxX2 (some p) (setBBoxX1 (some p) a (getBBox (some p) a).x)
        ((getBBox (some p) a).x + (getBBox (some p) a).width)).fX1 = a.fX1 ∧
    (setBBoxX2 (some p) (setBBoxX1 (some p) a (getBBox (some p) a).x)
        ((getBBox (some p) a).x + (getBBox (some p) a).width)).fY1 = a.fY1 := by
  have hbx : (getBBox (some p) a).x = p.xToPixel (a.fX1 - a.fR1) := rfl
  have hbw : (getBBox (some p) a).x + (getBBox (some p) a).width
      = p.xToPixel (a.fX1 + a.fR1) := by
    show p.xToPixel (a.fX1 - a.fR1) +
        (p.xToPixel (a.fX1 + a.fR1) - p.xToPixel (a.fX1 - a.fR1)) = _
    ring
  rw [hbw, hbx]
  rcases le_or_lt 0 a.fR1 with hr | hr
  · have h1 : ¬ p.pixelToX (p.xToPixel (a.fX1 - a.fR1)) > a.fX1 + a.fR1 := by
      rw [pixelToX_xToPixel p h]
      intro hgt
      linarith
    rw [setBBoxX1_eq, if_neg h1]
    rw [setBBoxX2_eq]
    rw [pixelToX_xToPixel p h, pixelToX_xToPixel p h]
    have h2 : ¬ a.fX1 + a.fR1 <
        (a.fX1 - a.fR1 + (a.fX1 + a.fR1 - (a.fX1 - a.fR1)) * 0.5) -
          (a.fX1 + a.fR1 - (a.fX1 - a.fR1)) * 0.5 := by
      intro hlt
      nlinarith
    rw [if_neg ?hc]
    case hc =>
      simp only []
      exact h2
    refine ⟨?_, ?_, rfl⟩ <;> (simp only []; ring)
  · have h1 : p.pixelToX (p.xToPixel (a.fX1 - a.fR1)) > a.fX1 + a.fR1 := by
      rw [pixelToX_xToPixel p h]
      linarith
    rw [setBBoxX1_eq, if_pos h1]
    rw [setBBoxX2_eq, pixelToX_xToPixel p h]
    have h2 : a.fX1 + a.fR1 < a.fX1 - a.fR1 := by linarith
    rw [if_pos h2]
    exact ⟨rfl, rfl, rfl⟩

/-- C7 witness: the bounding-box X round-trip at a concrete pad and arc. -/
theorem bbox_x_roundtrip_witness :
    pad1.mx ≠ 0 ∧
    (setBBoxX2 (some pad1) (setBBoxX1 (some pad1) arc1 (getBBox (some pad1) arc1).x)
        ((getBBox (some pad1) arc1).x + (getBBox (some pad1) arc1).width)).fR1
      = arc1.fR1 :=
  ⟨by norm_num [pad1], (bbox_x_roundtrip pad1 arc1 (by norm_num [pad1])).1⟩

/-- C8: starting from a nonnegative radius, every bounding-box edge move
(accepted or rejected) leaves the radius nonnegative on a nondegenerate
pad, and the drag commit on button release assigns an absolute half-width
radius, nonnegative for every working pixel radius including negative
ones. -/
theorem resize_radius_nonneg (p : Pad) (a : CurlyArc) (v : ℝ)
    (hx : p.x1 ≠ p.x2) (hy : p.y1 ≠ p.y2) (hr : 0 ≤ a.fR1) :
    (0 ≤ (setBBoxX1 (some p) a v).fR1 ∧ 0 ≤ (setBBoxX2 (some p) a v).fR1 ∧
     0 ≤ (setBBoxY1 (some p) a v).fR1 ∧ 0 ≤ (setBBoxY2 (some p) a v).fR1) ∧
    ∀ (wf : WaveBuilder) (px1 py1 r1 : ℝ),
      0 ≤ (executeButton1Up wf p a px1 py1 r1).fR1 := by
  have hax : (0:ℝ) < |p.x2 - p.x1| := abs_pos.mpr (sub_ne_zero.mpr (Ne.symm hx))
  have hay : (0:ℝ) < |p.y2 - p.y1| := abs_pos.mpr (sub_ne_zero.mpr (Ne.symm hy))
  refine ⟨⟨?_, ?_, ?_, ?_⟩, ?_⟩
  · rw [setBBoxX1_eq]
    split_ifs with hc
    · exact hr
    · simp only []
      push_neg at hc
      nlinarith
  · rw [setBBoxX2_eq]
    split_ifs with hc
    · exact hr
    · simp only []
      push_neg at hc
      nlinarith
  · rw [setBBoxY1_eq]
    split_ifs with hc
    · exact hr
    · simp only []
      push_neg at hc
      apply div_nonneg
      · nlinarith [abs_nonneg (p.y2 - p.y1), abs_nonneg (p.x2 - p.x1)]
      · positivity
  · rw [setBBoxY2_eq]
    split_ifs with hc
    · exact hr
    · simp only []
      push_neg at hc
      apply div_nonneg
      · nlinarith [abs_nonneg (p.y2 - p.y1), abs_nonneg (p.x2 - p.x1)]
      · positivity
  · intro wf px1 py1 r1
    show 0 ≤ |p.absPixelToX (px1 - r1) - p.absPixelToX (px1 + r1)| / 2
    positivity

/-- C8 witness: concrete resize operations on the identity pad keep the
radius nonnegative, including a negative working pixel radius at commit. -/
theorem resize_radius_nonneg_witness :
    0 ≤ arc1.fR1 ∧
    0 ≤ (setBBoxX1 (some pad1) arc1 (-2)).fR1 ∧
    0 ≤ (executeButton1Up emptyWave pad1 arc1 5 5 (-3)).fR1 := by
  have h := resize_radius_nonneg pad1 arc1 (-2) (by norm_num [pad1])
    (by norm_num [pad1]) (by norm_num [arc1])
  exact ⟨by norm_num [arc1], h.1.1, h.2 emptyWave 5 5 (-3)⟩

/-- The query point (90, 100) is 10 pixels from arc0's pixel center
(100, 100) under pad0. -/
theorem ptDist_pad0_90 : ptDist pad0 arc0 90 100 = 10 := by
  have hs : Real.sqrt 100 = 10 := by
    rw [show (100:ℝ) = 10 ^ 2 by norm_num]
    exact Real.sqrt_sq (by norm_num)
  unfold ptDist
  norm_num [Pad.xToAbsPixel, Pad.yToAbsPixel, pad0, arc0, hs]

/-- The query point (90, 100) sits at angle 180 degrees from arc0's pixel
center under pad0. -/
theorem ptPhi_pad0_90 : ptPhi pad0 arc0 90 100 = 180 := by
  have hnum : (pad0.yToAbsPixel arc0.fY1 - 100) / ptDist pad0 arc0 90 100 = 0 := by
    rw [ptDist_pad0_90]
    norm_num [Pad.yToAbsPixel, pad0, arc0]
  have hden : ((90:ℝ) - pad0.xToAbsPixel arc0.fX1) / ptDist pad0 arc0 90 100 = -1 := by
    rw [ptDist_pad0_90]
    norm_num [Pad.xToAbsPixel, pad0, arc0]
  have hat : atan2 0 (-1) = Real.pi := by
    unfold atan2
    rw [show ((-1:ℝ):ℂ) + ((0:ℝ):ℂ) * Complex.I = -1 by push_cast; ring]
    exact Complex.arg_neg_one
  unfold ptPhi
  rw [hnum, hden, hat, if_neg (not_lt.mpr Real.pi_pos.le)]
  rw [mul_comm Real.pi 180, mul_div_assoc, div_self Real.pi_ne_zero, mul_one]

/-- C1: without a host surface the hit test returns the 9999 sentinel;
but for the wraparound arc arc0 (phiMin 270, phiMax 90) the query point at
angle 180 degrees, outside the wrapped span, yields the radial distance
10 instead of the 9999 sentinel the claim requires: the source's
wraparound branch tests phi greater than phiMin and phi less than phiMax,
which is unsatisfiable when phiMax is below phiMin. -/
theorem distanceto_wraparound_eval :
    distancetoPrimitive none arc0 0 0 = some 9999 ∧
    arc0.fPhimax < arc0.fPhimin ∧
    distancetoPrimitive (some pad0) arc0 90 100 = some 10 := by
  refine ⟨rfl, by norm_num [arc0], ?_⟩
  have hr : pixelRadius pad0 arc0 = 20 := by
    norm_num [pixelRadius, Pad.xToPixel, pad0, arc0]
  have hfl : (Int.floor |(10:ℝ) - 20| : ℤ) = 10 := by
    rw [show |(10:ℝ) - 20| = ((10:ℤ):ℝ) by norm_num]
    exact Int.floor_intCast 10
  simp only [distancetoPrimitive, ptDist_pad0_90, ptPhi_pad0_90, hr]
  norm_num [arc0, hfl]

/-- C10 counterexample: the query point whose pixel coordinates coincide
with the arc's pixel center makes the distance divisor zero, so the
guarded-division embedding reaches the division error branch, refuting
the claim that the divisor is always nonzero. -/
theorem distanceto_center_division_counterexample :
    distancetoPrimitive (some pad0) arc0 100 100 = none := by
  have hd : ptDist pad0 arc0 100 100 = 0 := by
    unfold ptDist
    norm_num [Pad.xToAbsPixel, Pad.yToAbsPixel, pad0, arc0, Real.sqrt_zero]
  simp only [distancetoPrimitive, hd]
  norm_num

/-- C10 amended: for every query point whose pixel coordinates do not
both coincide with the arc's pixel center, the distance divisor is
nonzero and the hit test never reaches the division error branch. -/
theorem distanceto_offcenter_total (p : Pad) (a : CurlyArc) (px py : ℝ)
    (h : (p.xToAbsPixel a.fX1 - px) ^ 2 + (p.yToAbsPixel a.fY1 - py) ^ 2 ≠ 0) :
    (distancetoPrimitive (some p) a px py).isSome = true := by
  have h0 : 0 ≤ (p.xToAbsPixel a.fX1 - px) ^ 2 + (p.yToAbsPixel a.fY1 - py) ^ 2 := by
    positivity
  have hd : ptDist p a px py ≠ 0 := by
    unfold ptDist
    rw [Ne, Real.sqrt_eq_zero']
    exact not_le.mpr (lt_of_le_of_ne h0 (Ne.symm h))
  simp only [distancetoPrimitive]
  rw [if_neg hd]
  split_ifs <;> rfl

/-- C10 witness: a query point 10 pixels off the center is accepted by
the amended theorem and evaluates to a defined result. -/
theorem distanceto_offcenter_total_witness :
    (pad0.xToAbsPixel arc0.fX1 - 90) ^ 2 + (pad0.yToAbsPixel arc0.fY1 - 100) ^ 2 ≠ 0 ∧
    (distancetoPrimitive (some pad0) arc0 90 100).isSome = true := by
  have h : (pad0.xToAbsPixel arc0.fX1 - 90) ^ 2 +
      (pad0.yToAbsPixel arc0.fY1 - 100) ^ 2 ≠ 0 := by
    norm_num [Pad.xToAbsPixel, Pad.yToAbsPixel, pad0, arc0]
  exact ⟨h, distanceto_offcenter_total pad0 arc0 90 100 h⟩

end CurlyArcModel
